import Mathlib

/-!
Verification of `tools/pkt_gen/dummy/dummy.py` — the "Dummy" traffic
generator of the vswitchperf framework.  The module is a console Q&A
driver: it announces a requested test, reads operator-entered counters
back from stdin, and converts them into result records.

Shallow embedding conventions:
* Console I/O is modelled by an explicit list of operator input strings;
  a loop iteration consumes exactly one input, so the Python `while True`
  loops become structural recursion on that list.  Running out of inputs
  models the program blocking forever on `input()` (`Outcome.blocked`).
* Python exceptions that escape a method are `Outcome.raised`.
* Python `float` arithmetic is modelled by exact rationals `ℚ`; every
  value appearing here is small and exactly representable.
* Python `int` is modelled by `Int`.
-/

/-- Nested configuration value: the shape of the traffic-configuration
dictionaries (`l2.framesize`, `l3.proto`, ...) that the driver receives. -/
inductive ConfValue where
  | int (n : Int)
  | str (s : String)
  | map (entries : List (String × ConfValue))

/-- Association-list lookup, modelling Python `d[k]` returning `none`
where Python would raise `KeyError`. -/
def lookupConf (k : String) : List (String × ConfValue) → Option ConfValue
  | [] => none
  | (k2, v) :: rest => if k2 = k then some v else lookupConf k rest

/-- Replace the value stored at an existing key. -/
def replaceKey (k : String) (w : ConfValue) :
    List (String × ConfValue) → List (String × ConfValue)
  | [] => []
  | (k2, v) :: rest =>
      if k2 = k then (k2, w) :: rest else (k2, v) :: replaceKey k w rest

mutual

/-- Modelled from the spec: `trafficgen.merge_spec` (the `trafficgen`
module is not part of the sources).  Per the spec, it is "a deep-merge
operation over nested key/value structures where override keys take
precedence recursively; keys not present in the override are preserved
from defaults". -/
def merge_spec : ConfValue → ConfValue → ConfValue
  | ConfValue.map bs, ConfValue.map os => ConfValue.map (applyOverrides bs os)
  | _, ov => ov

/-- Apply each override entry in turn to a base entry list. -/
def applyOverrides (bs : List (String × ConfValue)) :
    List (String × ConfValue) → List (String × ConfValue)
  | [] => bs
  | (k, w) :: rest =>
      match lookupConf k bs with
      | some v => applyOverrides (replaceKey k (merge_spec v w) bs) rest
      | none => applyOverrides (bs ++ [(k, w)]) rest

end

/-- Models the Python expression `traffic_['l2']['framesize']` together
with its use in arithmetic: `some n` when the nested lookup yields the
integer `n`, `none` when Python would raise (`KeyError` for a missing
key, `TypeError` for a non-mapping level or non-numeric frame size). -/
def getFramesize (traffic : ConfValue) : Option Int :=
  match traffic with
  | ConfValue.map es =>
      match lookupConf "l2" es with
      | some (ConfValue.map l2) =>
          match lookupConf "framesize" l2 with
          | some (ConfValue.int n) => some n
          | _ => none
      | _ => none
  | _ => none

/-- Exceptions that the Python methods can raise. -/
inductive PyErr where
  | keyError
  | indexError
  | zeroDivision
  deriving DecidableEq

/-- Outcome of running one facade method against a finite list of
operator inputs: the method blocks forever awaiting input, raises, or
returns a value. -/
inductive Outcome (α : Type) where
  | blocked
  | raised (e : PyErr)
  | returns (a : α)

/-! ### Console Input Validator (`_get_user_traffic_stat`) -/

/-- ASCII lower-casing of one character, as Python `str.lower` acts on
the ASCII inputs relevant here. -/
def lowerChar (c : Char) : Char :=
  if 'A' ≤ c ∧ c ≤ 'Z' then Char.ofNat (c.toNat + 32) else c

/-- Models `str.lower()` (ASCII fragment). -/
def pyLower (s : String) : String :=
  String.mk (s.toList.map lowerChar)

/-- Whitespace stripped by Python `int(str)` before parsing (ASCII). -/
def isPySpace (c : Char) : Bool :=
  c = ' ' ∨ c = '\t' ∨ c = '\n' ∨ c = '\r' ∨ c = '\x0b' ∨ c = '\x0c'

/-- Strip leading and trailing whitespace. -/
def pyStrip (cs : List Char) : List Char :=
  ((cs.dropWhile isPySpace).reverse.dropWhile isPySpace).reverse

/-- Value of a decimal digit string (most significant first). -/
def digitsVal (cs : List Char) : Nat :=
  cs.foldl (fun a c => a * 10 + (c.toNat - 48)) 0

/-- Models Python `int(result)` on a console line: optional surrounding
whitespace, an optional sign, then at least one decimal digit; `none`
models `ValueError`.  (Python also accepts some non-ASCII digit forms,
never produced at a console here.) -/
def pyParseInt (s : String) : Option Int :=
  match pyStrip s.toList with
  | [] => none
  | c :: rest =>
      if c = '-' then
        if rest ≠ [] ∧ rest.all Char.isDigit then
          some (-(digitsVal rest : Int))
        else none
      else if c = '+' then
        if rest ≠ [] ∧ rest.all Char.isDigit then
          some ((digitsVal rest : Int))
        else none
      else
        if (c :: rest).all Char.isDigit then
          some ((digitsVal (c :: rest) : Int))
        else none

/-- The `true_vals` tuple of `_get_user_traffic_stat` (the tuple also lists `None`,
which a string read from `input()` can never equal). -/
def trueVals : List String := ["yes", "y", "ye"]

/-- The `false_vals` tuple of `_get_user_traffic_stat`. -/
def falseVals : List String := ["no", "n"]

/-- Console events: each prompt shown and message printed, in order. -/
inductive ConsoleEvent where
  | announce (trafficType : String) (streamDesc : String) (flowConf : ConfValue)
  | promptStat (statType : String)
  | invalidIntMsg
  | promptConfirm (value : Int)
  | respondYesNoMsg

/-- One combined loop for `_get_user_traffic_stat`.  `pending = none` is
the outer `while True` (ask for an integer); `pending = some n` is the
inner `while True` (ask whether `n` is correct).  Each iteration consumes
one operator input; `none` models blocking forever on `input()`.  On
success it returns the accepted integer, the unconsumed inputs, and the
console events produced. -/
def runValidator (statType : String) (pending : Option Int) :
    List String → Option (Int × List String × List ConsoleEvent)
  | [] => none
  | s :: rest =>
      match pending with
      | none =>
          match pyParseInt s with
          | none =>
              (runValidator statType none rest).map
                (fun r => (r.1, r.2.1,
                  ConsoleEvent.promptStat statType ::
                    ConsoleEvent.invalidIntMsg :: r.2.2))
          | some n =>
              (runValidator statType (some n) rest).map
                (fun r => (r.1, r.2.1,
                  ConsoleEvent.promptStat statType :: r.2.2))
      | some n =>
          let choice := pyLower s
          if choice = "" ∨ choice ∈ trueVals then
            some (n, rest, [ConsoleEvent.promptConfirm n])
          else if choice ∈ falseVals then
            (runValidator statType none rest).map
              (fun r => (r.1, r.2.1, ConsoleEvent.promptConfirm n :: r.2.2))
          else
            (runValidator statType (some n) rest).map
              (fun r => (r.1, r.2.1,
                ConsoleEvent.promptConfirm n ::
                  ConsoleEvent.respondYesNoMsg :: r.2.2))

/-- Models `_get_user_traffic_stat(stat_type)`: request one confirmed integer
statistic from the operator. -/
def get_user_traffic_stat (statType : String) (inputs : List String) :
    Option (Int × List String × List ConsoleEvent) :=
  runValidator statType none inputs

/-! ### Traffic Request Announcer / Result Collector (`get_user_traffic`) -/

/-- The `for stat in traffic_stats` loop of `get_user_traffic`: one
validator run per statistic name, threading the remaining operator
inputs, collecting values in order and concatenating console events. -/
def collectStats : List String → List String →
    Option (List Int × List String × List ConsoleEvent)
  | [], inputs => some ([], inputs, [])
  | stat :: more, inputs =>
      match get_user_traffic_stat stat inputs with
      | none => none
      | some (v, rest, evs) =>
          match collectStats more rest with
          | none => none
          | some (vs, rest2, evs2) => some (v :: vs, rest2, evs ++ evs2)

/-- Models `get_user_traffic(traffic_type, traffic_conf, flow_conf,
traffic_stats)`: print the announcement once, then request each listed
statistic from the operator in order.  (The announcement event carries
the flow configuration itself; the `json.dumps` display formatting is
abstracted away.) -/
def get_user_traffic (trafficType trafficConf : String) (flowConf : ConfValue)
    (trafficStats : List String) (inputs : List String) :
    Option (List Int × List String × List ConsoleEvent) :=
  (collectStats trafficStats inputs).map
    (fun r => (r.1, r.2.1,
      ConsoleEvent.announce trafficType trafficConf flowConf :: r.2.2))

/-! ### Driver Facade (`class Dummy`) -/

/-- Driver instance state: only the externally provided baseline traffic
configuration (`traffic_defaults`, inherited from
`trafficgen.ITrafficGenerator`, which is outside the sources). -/
structure Dummy where
  traffic_defaults : ConfValue

/-- Models `connect()`: do nothing, return itself. -/
def Dummy.connect (dev : Dummy) : Dummy := dev

/-- Models `disconnect()`: do nothing. -/
def Dummy.disconnect (_dev : Dummy) : Unit := ()

/-- Modelled from the spec: `trafficgen.BurstResult` (defined in the
`trafficgen` module, outside the sources) — the "structured burst result
constructed from the three raw operator-supplied values (received
frames, payload errors, sequence errors) in that order". -/
structure BurstResult where
  frames_rx : Int
  payload_err : Int
  seq_err : Int
  deriving DecidableEq

/-- The burst-test result-constants dictionary built (and discarded) by
`send_burst_traffic`; field names follow `core.results.ResultsConstants`. -/
structure BurstStatsDict where
  TX_FRAMES : Int
  RX_FRAMES : Int
  TX_BYTES : Int
  RX_BYTES : Int
  PAYLOAD_ERR : Int
  SEQ_ERR : Int
  deriving DecidableEq

/-- The result record returned by `send_cont_traffic` and
`send_rfc2544_throughput`; field names follow
`core.results.ResultsConstants`.  Python floats are modelled as exact
rationals. -/
structure ContResult where
  THROUGHPUT_TX_FPS : ℚ
  THROUGHPUT_RX_FPS : ℚ
  THROUGHPUT_TX_MBPS : ℚ
  THROUGHPUT_RX_MBPS : ℚ
  THROUGHPUT_TX_PERCENT : ℚ
  THROUGHPUT_RX_PERCENT : ℚ
  MIN_LATENCY_NS : ℚ
  MAX_LATENCY_NS : ℚ
  AVG_LATENCY_NS : ℚ
  deriving DecidableEq

/-- The `traffic_ = self.traffic_defaults.copy(); if traffic: traffic_ =
trafficgen.merge_spec(traffic_, traffic)` prologue shared by all three
test methods (`none` models the default `traffic=None`). -/
def effectiveTraffic (dev : Dummy) : Option ConfValue → ConfValue
  | none => dev.traffic_defaults
  | some t => merge_spec dev.traffic_defaults t

/-- The statistic names requested by `send_burst_traffic`. -/
def burstStats : List String := ["frames rx", "payload errors", "sequence errors"]

/-- The statistic names requested by `send_cont_traffic` and
`send_rfc2544_throughput`. -/
def contStats : List String :=
  ["frames tx", "frames rx", "min latency", "max latency", "avg latency"]

/-- The stream-description string `'%dpkts, %dmS' % (numpkts, time)`. -/
def burstDesc (numpkts time : Int) : String :=
  toString numpkts ++ "pkts, " ++ toString time ++ "mS"

/-- The stream-description string of `send_cont_traffic`:
`'%dmS, %dmpps, multistream %s' % (time, framerate, multistream)`. -/
def contDesc (time framerate : Int) (multistream : Bool) : String :=
  toString time ++ "mS, " ++ toString framerate ++ "mpps, multistream " ++
    (if multistream then "True" else "False")

/-- The stream-description string of `send_rfc2544_throughput` (the `%f`
rendering of the loss rate is abstracted to `toString`). -/
def rfcDesc (trials duration : Int) (lossrate : ℚ) (multistream : Bool) :
    String :=
  toString trials ++ " trials, " ++ toString duration ++
    " seconds iterations, " ++ toString lossrate ++ " packet loss, " ++
    "multistream " ++ (if multistream then "enabled" else "disabled")

/-- Models `send_burst_traffic(traffic, numpkts, time, framerate)`, including
the local result-constants dictionary it builds: the outcome carries the
pair (dictionary `result`, returned `BurstResult`).  Failure order
follows the source: blocking inside `get_user_traffic`, then
`results[0]`, then the `traffic_['l2']['framesize']` lookup. -/
def send_burst_traffic_run (dev : Dummy) (traffic : Option ConfValue)
    (numpkts time _framerate : Int) (inputs : List String) :
    Outcome (BurstStatsDict × BurstResult) :=
  let traffic_ := effectiveTraffic dev traffic
  match get_user_traffic "burst" (burstDesc numpkts time) traffic_
      burstStats inputs with
  | none => Outcome.blocked
  | some (results, _, _) =>
      match results with
      | [] => Outcome.raised PyErr.indexError
      | r0 :: rest =>
          match getFramesize traffic_ with
          | none => Outcome.raised PyErr.keyError
          | some framesize =>
              match rest with
              | r1 :: r2 :: _ =>
                  Outcome.returns
                    ({ TX_FRAMES := numpkts
                       RX_FRAMES := r0
                       TX_BYTES := framesize * numpkts
                       RX_BYTES := framesize * r0
                       PAYLOAD_ERR := r1
                       SEQ_ERR := r2 },
                     { frames_rx := r0, payload_err := r1, seq_err := r2 })
              | _ => Outcome.raised PyErr.indexError

/-- The value `send_burst_traffic` actually returns:
`trafficgen.BurstResult(*results)`.  The result-constants dictionary
built in the body is discarded. -/
def send_burst_traffic (dev : Dummy) (traffic : Option ConfValue)
    (numpkts time framerate : Int) (inputs : List String) :
    Outcome BurstResult :=
  match send_burst_traffic_run dev traffic numpkts time framerate inputs with
  | Outcome.blocked => Outcome.blocked
  | Outcome.raised e => Outcome.raised e
  | Outcome.returns p => Outcome.returns p.2

/-- Shared result-building tail of `send_cont_traffic` and
`send_rfc2544_throughput`, applied after the collector has answered:
mirrors the nine `result[...] = ...` assignments, with the failure order
of the source (`framesize` lookup, then `results[0]`, then the division
by the duration, then `results[1..4]`). -/
def buildContResult (traffic_ : ConfValue) (time : Int)
    (results : List Int) : Outcome ContResult :=
  match getFramesize traffic_ with
  | none => Outcome.raised PyErr.keyError
  | some framesize =>
      match results with
      | [] => Outcome.raised PyErr.indexError
      | r0 :: rest =>
          if time = 0 then Outcome.raised PyErr.zeroDivision
          else
            match rest with
            | r1 :: r2 :: r3 :: r4 :: _ =>
                Outcome.returns
                  { THROUGHPUT_TX_FPS := (r0 : ℚ) / (time : ℚ)
                    THROUGHPUT_RX_FPS := (r1 : ℚ) / (time : ℚ)
                    THROUGHPUT_TX_MBPS := (r0 : ℚ) * (framesize : ℚ) / (time : ℚ)
                    THROUGHPUT_RX_MBPS := (r1 : ℚ) * (framesize : ℚ) / (time : ℚ)
                    THROUGHPUT_TX_PERCENT := 0
                    THROUGHPUT_RX_PERCENT := 0
                    MIN_LATENCY_NS := (r2 : ℚ)
                    MAX_LATENCY_NS := (r3 : ℚ)
                    AVG_LATENCY_NS := (r4 : ℚ) }
            | _ => Outcome.raised PyErr.indexError

/-- Models `send_cont_traffic(traffic, time, framerate, multistream)`. -/
def send_cont_traffic (dev : Dummy) (traffic : Option ConfValue)
    (time framerate : Int) (multistream : Bool) (inputs : List String) :
    Outcome ContResult :=
  let traffic_ := effectiveTraffic dev traffic
  match get_user_traffic "continuous" (contDesc time framerate multistream)
      traffic_ contStats inputs with
  | none => Outcome.blocked
  | some (results, _, _) => buildContResult traffic_ time results

/-- Models `send_rfc2544_throughput(traffic, trials, duration, lossrate,
multistream)`. -/
def send_rfc2544_throughput (dev : Dummy) (traffic : Option ConfValue)
    (trials duration : Int) (lossrate : ℚ) (multistream : Bool)
    (inputs : List String) : Outcome ContResult :=
  let traffic_ := effectiveTraffic dev traffic
  match get_user_traffic "throughput"
      (rfcDesc trials duration lossrate multistream) traffic_
      contStats inputs with
  | none => Outcome.blocked
  | some (results, _, _) => buildContResult traffic_ duration results

/-- Concrete baseline configuration used in witnesses: an `l2.framesize`
of 64 plus unrelated keys, in the shape of the framework defaults. -/
def sampleDefaults : ConfValue :=
  ConfValue.map
    [("l2", ConfValue.map
        [("framesize", ConfValue.int 64),
         ("srcmac", ConfValue.str "00:00:00:00:00:00")]),
     ("l3", ConfValue.map
        [("proto", ConfValue.str "tcp"),
         ("srcip", ConfValue.str "1.1.1.1")])]

/-- A driver instance over the sample defaults. -/
def sampleDev : Dummy := { traffic_defaults := sampleDefaults }

/-! ### Helper lemmas -/

/-- The collector returns exactly one value per requested statistic. -/
theorem collectStats_length {stats inputs vs rest evs}
    (h : collectStats stats inputs = some (vs, rest, evs)) :
    vs.length = stats.length := by
  induction stats generalizing inputs vs rest evs with
  | nil =>
      simp only [collectStats, Option.some.injEq, Prod.mk.injEq] at h
      simp [← h.1]
  | cons st more ih =>
      simp only [collectStats] at h
      split at h
      · exact absurd h (by simp)
      · split at h
        · exact absurd h (by simp)
        · rename_i v rest1 evs1 _ vs2 rest2 evs2 h2
          simp only [Option.some.injEq, Prod.mk.injEq] at h
          have := ih h2
          simp [← h.1, this]

/-- Inversion for `buildContResult`: a returned record comes from a
present integer frame size, a nonzero duration and at least five
collected values, and its fields are the derived metrics. -/
theorem buildContResult_returns {traffic_ time results r}
    (h : buildContResult traffic_ time results = Outcome.returns r) :
    ∃ framesize r0 r1 r2 r3 r4 rest,
      getFramesize traffic_ = some framesize ∧
      results = r0 :: r1 :: r2 :: r3 :: r4 :: rest ∧
      time ≠ 0 ∧
      r = { THROUGHPUT_TX_FPS := (r0 : ℚ) / (time : ℚ)
            THROUGHPUT_RX_FPS := (r1 : ℚ) / (time : ℚ)
            THROUGHPUT_TX_MBPS := (r0 : ℚ) * (framesize : ℚ) / (time : ℚ)
            THROUGHPUT_RX_MBPS := (r1 : ℚ) * (framesize : ℚ) / (time : ℚ)
            THROUGHPUT_TX_PERCENT := 0
            THROUGHPUT_RX_PERCENT := 0
            MIN_LATENCY_NS := (r2 : ℚ)
            MAX_LATENCY_NS := (r3 : ℚ)
            AVG_LATENCY_NS := (r4 : ℚ) } := by
  unfold buildContResult at h
  split at h
  · exact absurd h (by simp)
  · rename_i fs hf
    split at h
    · exact absurd h (by simp)
    · rename_i r0 rest0
      split at h
      · exact absurd h (by simp)
      · rename_i ht
        split at h
        · rename_i r1 r2 r3 r4 tail
          simp only [Outcome.returns.injEq] at h
          exact ⟨fs, r0, r1, r2, r3, r4, tail, hf, rfl, ht, h.symm⟩
        · exact absurd h (by simp)

/-- If the duration is nonzero and the frame size lookup succeeds,
`buildContResult` on five or more values returns a record. -/
theorem buildContResult_total {traffic_ time framesize r0 r1 r2 r3 r4 rest}
    (hf : getFramesize traffic_ = some framesize) (ht : time ≠ 0) :
    ∃ r, buildContResult traffic_ time (r0 :: r1 :: r2 :: r3 :: r4 :: rest) =
      Outcome.returns r := by
  unfold buildContResult
  simp only [hf]
  rw [if_neg ht]
  exact ⟨_, rfl⟩

/-- A first-attempt run of the collector: every statistic's value text
parses as an integer and its confirmation is empty or affirmative, so
each validator call consumes exactly two inputs. -/
theorem collectStats_firstTry (stats : List String) :
    ∀ (pairs : List (String × String)) (vs : List Int) (extra : List String),
    pairs.length = stats.length →
    List.Forall₂ (fun (p : String × String) (v : Int) =>
      pyParseInt p.1 = some v ∧
        (pyLower p.2 = "" ∨ pyLower p.2 ∈ trueVals)) pairs vs →
    collectStats stats ((pairs.flatMap fun p => [p.1, p.2]) ++ extra) =
      some (vs, extra,
        (stats.zip vs).flatMap fun sv =>
          [ConsoleEvent.promptStat sv.1, ConsoleEvent.promptConfirm sv.2]) := by
  induction stats with
  | nil =>
      intro pairs vs extra hlen hall
      simp only [List.length_nil, List.length_eq_zero] at hlen
      subst hlen
      cases hall
      simp [collectStats]
  | cons st more ih =>
      intro pairs vs extra hlen hall
      rcases pairs with _ | ⟨p, ps⟩
      · exact absurd hlen (by simp)
      · cases hall with
        | cons hrel htail =>
          rename_i v vs'
          have hstat : get_user_traffic_stat st
              (p.1 :: p.2 :: ((ps.flatMap fun q => [q.1, q.2]) ++ extra)) =
              some (v, (ps.flatMap fun q => [q.1, q.2]) ++ extra,
                [ConsoleEvent.promptStat st, ConsoleEvent.promptConfirm v]) := by
            simp only [get_user_traffic_stat, runValidator, hrel.1]
            rw [if_pos hrel.2]
            rfl
          have hrest := ih ps vs' extra (by simpa using hlen) htail
          simp only [List.flatMap_cons, List.cons_append, List.append_assoc] at hstat ⊢
          simp [collectStats, hstat, hrest, List.zip_cons_cons]


/-- C5: after an integer `n` has been entered, an empty or affirmative
confirmation accepts and returns `n`; a negative response discards it
and restarts the integer prompt; any other confirmation input re-prompts
the confirmation question without re-asking for the integer. -/
theorem C5_validator_confirmation (stat : String) (n : Int) (s : String)
    (rest : List String) :
    ((pyLower s = "" ∨ pyLower s ∈ trueVals) →
      runValidator stat (some n) (s :: rest) =
        some (n, rest, [ConsoleEvent.promptConfirm n])) ∧
    (pyLower s ∈ falseVals →
      runValidator stat (some n) (s :: rest) =
        (runValidator stat none rest).map
          (fun r => (r.1, r.2.1, ConsoleEvent.promptConfirm n :: r.2.2))) ∧
    (¬ (pyLower s = "" ∨ pyLower s ∈ trueVals) → pyLower s ∉ falseVals →
      runValidator stat (some n) (s :: rest) =
        (runValidator stat (some n) rest).map
          (fun r => (r.1, r.2.1, ConsoleEvent.promptConfirm n ::
            ConsoleEvent.respondYesNoMsg :: r.2.2))) := by
  refine ⟨fun h => ?_, fun h => ?_, fun h1 h2 => ?_⟩
  · simp only [runValidator]
    rw [if_pos h]
  · have h1 : ¬ (pyLower s = "" ∨ pyLower s ∈ trueVals) := by
      simp only [falseVals, List.mem_cons, List.not_mem_nil, or_false] at h
      rcases h with h | h <;> rw [h] <;> decide
    simp only [runValidator]
    rw [if_neg h1, if_pos h]
  · simp only [runValidator]
    rw [if_neg h1, if_neg h2]

/-- C5 witness: with `5` pending, empty confirmation accepts `5`;
a `"no"` discards it and restarts on the remaining input; a `"maybe"`
re-asks the confirmation. -/
theorem C5_witness :
    runValidator "frames rx" (some 5) ["" ] =
      some (5, [], [ConsoleEvent.promptConfirm 5]) ∧
    runValidator "frames rx" (some 5) ["no", "7", ""] =
      (runValidator "frames rx" none ["7", ""]).map
        (fun r => (r.1, r.2.1, ConsoleEvent.promptConfirm 5 :: r.2.2)) ∧
    runValidator "frames rx" (some 5) ["maybe", ""] =
      (runValidator "frames rx" (some 5) [""]).map
        (fun r => (r.1, r.2.1, ConsoleEvent.promptConfirm 5 ::
          ConsoleEvent.respondYesNoMsg :: r.2.2)) :=
  ⟨(C5_validator_confirmation "frames rx" 5 "" []).1 (by decide),
   (C5_validator_confirmation "frames rx" 5 "no" ["7", ""]).2.1 (by decide),
   (C5_validator_confirmation "frames rx" 5 "maybe" [""]).2.2 (by decide)
     (by decide)⟩

/-- C8: a non-integer-parseable input makes the validator print an error
and re-prompt for the integer, never entering the confirmation step; an
integer-parseable input is accepted into the confirmation step with
exactly the parsed value, whatever its magnitude or sign — an immediate
empty confirmation then returns it. -/
theorem C8_validator_parsing (stat : String) (s : String)
    (rest : List String) :
    (pyParseInt s = none →
      runValidator stat none (s :: rest) =
        (runValidator stat none rest).map
          (fun r => (r.1, r.2.1, ConsoleEvent.promptStat stat ::
            ConsoleEvent.invalidIntMsg :: r.2.2))) ∧
    (∀ n : Int, pyParseInt s = some n →
      runValidator stat none (s :: rest) =
        (runValidator stat (some n) rest).map
          (fun r => (r.1, r.2.1, ConsoleEvent.promptStat stat :: r.2.2))) ∧
    (∀ n : Int, pyParseInt s = some n →
      runValidator stat none (s :: "" :: rest) =
        some (n, rest, [ConsoleEvent.promptStat stat,
          ConsoleEvent.promptConfirm n])) := by
  refine ⟨fun h => ?_, fun n h => ?_, fun n h => ?_⟩
  · simp only [runValidator]
    rw [h]
  · simp only [runValidator]
    rw [h]
  · simp only [runValidator]
    rw [h]
    simp [runValidator, pyLower]

/-- C8 witness: `"10.5"` is rejected and re-prompts; the 30-digit
negative `-123456789012345678901234567890` parses and is accepted with
no bound check, an empty confirmation returning it unchanged. -/
theorem C8_witness :
    pyParseInt "10.5" = none ∧
    pyParseInt "-123456789012345678901234567890" =
      some (-123456789012345678901234567890) ∧
    runValidator "frames rx" none ["10.5", "7", ""] =
      (runValidator "frames rx" none ["7", ""]).map
        (fun r => (r.1, r.2.1, ConsoleEvent.promptStat "frames rx" ::
          ConsoleEvent.invalidIntMsg :: r.2.2)) ∧
    runValidator "frames rx" none ["-123456789012345678901234567890", ""] =
      some (-123456789012345678901234567890, [],
        [ConsoleEvent.promptStat "frames rx",
         ConsoleEvent.promptConfirm (-123456789012345678901234567890)]) :=
  ⟨by decide, by decide,
   (C8_validator_parsing "frames rx" "10.5" ["7", ""]).1 (by decide),
   (C8_validator_parsing "frames rx" "-123456789012345678901234567890"
      []).2.2 (-123456789012345678901234567890) (by decide)⟩

/-- C9: the confirmation response is compared after lower-casing, so two
inputs with the same lower-case form are handled identically by the
validator — in particular `"YES"`, `"Y"`, `"Ye"` accept and `"NO"`,
`"N"` reject exactly as their lowercase forms do. -/
theorem C9_confirmation_case_insensitive (stat : String) (n : Int)
    (c1 c2 : String) (rest : List String)
    (h : pyLower c1 = pyLower c2) :
    runValidator stat (some n) (c1 :: rest) =
      runValidator stat (some n) (c2 :: rest) := by
  simp only [runValidator]
  rw [h]

/-- C9 witness: `"YES"` is handled exactly like `"yes"` (both accept the
pending `5`), and `"NO"` exactly like `"no"`. -/
theorem C9_witness :
    runValidator "frames rx" (some 5) ["YES"] =
      runValidator "frames rx" (some 5) ["yes"] ∧
    runValidator "frames rx" (some 5) ["NO", "7", ""] =
      runValidator "frames rx" (some 5) ["no", "7", ""] :=
  ⟨C9_confirmation_case_insensitive "frames rx" 5 "YES" "yes" [] (by decide),
   C9_confirmation_case_insensitive "frames rx" 5 "NO" "no" ["7", ""]
     (by decide)⟩

/-- C7: when each statistic is entered validly and confirmed on the
first attempt, `get_user_traffic` prints the announcement exactly once
(the single `announce` event heading the trace), issues exactly one
integer prompt per statistic name in list order, and returns exactly one
value per statistic, the i-th value being the operator's answer for the
i-th name. -/
theorem C7_collector_order (trafficType trafficConf : String)
    (flowConf : ConfValue) (stats : List String)
    (pairs : List (String × String)) (vs : List Int) (extra : List String)
    (hlen : pairs.length = stats.length)
    (hall : List.Forall₂ (fun (p : String × String) (v : Int) =>
      pyParseInt p.1 = some v ∧
        (pyLower p.2 = "" ∨ pyLower p.2 ∈ trueVals)) pairs vs) :
    get_user_traffic trafficType trafficConf flowConf stats
        ((pairs.flatMap fun p => [p.1, p.2]) ++ extra) =
      some (vs, extra,
        ConsoleEvent.announce trafficType trafficConf flowConf ::
          ((stats.zip vs).flatMap fun sv =>
            [ConsoleEvent.promptStat sv.1, ConsoleEvent.promptConfirm sv.2])) ∧
    vs.length = stats.length := by
  refine ⟨?_, hall.length_eq.symm.trans hlen⟩
  rw [get_user_traffic, collectStats_firstTry stats pairs vs extra hlen hall]
  rfl

/-- C7 witness: two statistics, both answered and confirmed first try:
the trace is one announcement then the two prompts in order, and the
values come back in order. -/
theorem C7_witness :
    get_user_traffic "burst" "100pkts, 20mS" sampleDefaults
        ["frames rx", "payload errors"] ["90", "", "2", "y"] =
      some ([90, 2], [],
        [ConsoleEvent.announce "burst" "100pkts, 20mS" sampleDefaults,
         ConsoleEvent.promptStat "frames rx", ConsoleEvent.promptConfirm 90,
         ConsoleEvent.promptStat "payload errors",
         ConsoleEvent.promptConfirm 2]) ∧
    ([90, 2] : List Int).length = (["frames rx", "payload errors"] : List String).length :=
  C7_collector_order "burst" "100pkts, 20mS" sampleDefaults
    ["frames rx", "payload errors"] [("90", ""), ("2", "y")] [90, 2] []
    (by decide)
    (List.Forall₂.cons ⟨by decide, by decide⟩
      (List.Forall₂.cons ⟨by decide, by decide⟩ List.Forall₂.nil))

/-- C6: for the same duration and operator inputs, `send_cont_traffic`
and `send_rfc2544_throughput` have identical outcomes, whatever the
frame rate, trial count, loss rate and multistream flags: the two
methods differ only in their printed labels, which do not reach the
result. -/
theorem C6_cont_equals_rfc2544 (dev : Dummy) (traffic : Option ConfValue)
    (t framerate : Int) (multistream : Bool) (trials : Int) (lossrate : ℚ)
    (ms2 : Bool) (inputs : List String) :
    send_cont_traffic dev traffic t framerate multistream inputs =
      send_rfc2544_throughput dev traffic trials t lossrate ms2 inputs := by
  unfold send_cont_traffic send_rfc2544_throughput get_user_traffic
  cases h : collectStats contStats inputs with
  | none => simp [h]
  | some trip => simp [h]

/-- C1: for any traffic override, parameters and operator answers, the
burst method's body produces the result-constants dictionary, yet the
value the method returns is only the narrower `BurstResult` built from
the three raw operator-supplied values (received frames, payload errors,
sequence errors) in that order — the dictionary is discarded. -/
theorem C1_burst_discards_dict (dev : Dummy) (traffic : Option ConfValue)
    (numpkts time framerate : Int) (inputs : List String)
    (vs : List Int) (rest : List String) (evs : List ConsoleEvent) (fs : Int)
    (hcoll : collectStats burstStats inputs = some (vs, rest, evs))
    (hfs : getFramesize (effectiveTraffic dev traffic) = some fs) :
    ∃ r0 r1 r2, vs = [r0, r1, r2] ∧
      send_burst_traffic_run dev traffic numpkts time framerate inputs =
        Outcome.returns
          ({ TX_FRAMES := numpkts
             RX_FRAMES := r0
             TX_BYTES := fs * numpkts
             RX_BYTES := fs * r0
             PAYLOAD_ERR := r1
             SEQ_ERR := r2 },
           { frames_rx := r0, payload_err := r1, seq_err := r2 }) ∧
      send_burst_traffic dev traffic numpkts time framerate inputs =
        Outcome.returns { frames_rx := r0, payload_err := r1, seq_err := r2 } := by
  have h3 : vs.length = 3 := by
    simpa [burstStats] using collectStats_length hcoll
  rcases vs with _ | ⟨r0, _ | ⟨r1, _ | ⟨r2, _ | ⟨x, t⟩⟩⟩⟩ <;> simp at h3
  refine ⟨r0, r1, r2, rfl, ?_, ?_⟩ <;>
    simp [send_burst_traffic, send_burst_traffic_run, get_user_traffic,
      hcoll, hfs]

/-- C1 witness: with the sample defaults (frame size 64), answers 90, 2,
1 produce the dictionary internally while the method returns only
`BurstResult 90 2 1`. -/
theorem C1_witness :
    ∃ r0 r1 r2, ([90, 2, 1] : List Int) = [r0, r1, r2] ∧
      send_burst_traffic_run sampleDev none 100 20 100
          ["90", "", "2", "", "1", ""] =
        Outcome.returns
          ({ TX_FRAMES := 100
             RX_FRAMES := r0
             TX_BYTES := 64 * 100
             RX_BYTES := 64 * r0
             PAYLOAD_ERR := r1
             SEQ_ERR := r2 },
           { frames_rx := r0, payload_err := r1, seq_err := r2 }) ∧
      send_burst_traffic sampleDev none 100 20 100
          ["90", "", "2", "", "1", ""] =
        Outcome.returns { frames_rx := r0, payload_err := r1, seq_err := r2 } :=
  C1_burst_discards_dict sampleDev none 100 20 100
    ["90", "", "2", "", "1", ""] [90, 2, 1] []
    [ConsoleEvent.promptStat "frames rx", ConsoleEvent.promptConfirm 90,
     ConsoleEvent.promptStat "payload errors", ConsoleEvent.promptConfirm 2,
     ConsoleEvent.promptStat "sequence errors", ConsoleEvent.promptConfirm 1]
    64 rfl rfl

/-- C4: the result-constants dictionary built by `send_burst_traffic`
with packet count `n`, frame size `fs` and answers `r`, `p`, `q` holds
`TX_FRAMES = n`, `RX_FRAMES = r`, `TX_BYTES = fs·n`, `RX_BYTES = fs·r`,
`PAYLOAD_ERR = p`, `SEQ_ERR = q`. -/
theorem C4_burst_dict_values (dev : Dummy) (traffic : Option ConfValue)
    (numpkts time framerate : Int) (inputs : List String)
    (r p q : Int) (rest : List String) (evs : List ConsoleEvent) (fs : Int)
    (hcoll : collectStats burstStats inputs = some ([r, p, q], rest, evs))
    (hfs : getFramesize (effectiveTraffic dev traffic) = some fs) :
    ∃ b, send_burst_traffic_run dev traffic numpkts time framerate inputs =
      Outcome.returns
        ({ TX_FRAMES := numpkts
           RX_FRAMES := r
           TX_BYTES := fs * numpkts
           RX_BYTES := fs * r
           PAYLOAD_ERR := p
           SEQ_ERR := q }, b) := by
  refine ⟨{ frames_rx := r, payload_err := p, seq_err := q }, ?_⟩
  simp [send_burst_traffic_run, get_user_traffic, hcoll, hfs]

/-- C4 witness: the spec's scenario — `numpkts = 100`, answers 90, 2, 1,
frame size 64 — yields `TX_BYTES = 6400`, `RX_BYTES = 5760`,
`RX_FRAMES = 90`, `PAYLOAD_ERR = 2`, `SEQ_ERR = 1`. -/
theorem C4_witness :
    ∃ b, send_burst_traffic_run sampleDev none 100 20 100
        ["90", "", "2", "", "1", ""] =
      Outcome.returns
        ({ TX_FRAMES := 100
           RX_FRAMES := 90
           TX_BYTES := 6400
           RX_BYTES := 5760
           PAYLOAD_ERR := 2
           SEQ_ERR := 1 }, b) :=
  C4_burst_dict_values sampleDev none 100 20 100
    ["90", "", "2", "", "1", ""] 90 2 1 []
    [ConsoleEvent.promptStat "frames rx", ConsoleEvent.promptConfirm 90,
     ConsoleEvent.promptStat "payload errors", ConsoleEvent.promptConfirm 2,
     ConsoleEvent.promptStat "sequence errors", ConsoleEvent.promptConfirm 1]
    64 rfl rfl

/-- C3: with nonzero-positive duration `t`, frame size `s` and operator
answers `tx, rx, mn, mx, avg`, both continuous and RFC-2544 methods
return `tx_fps = tx/t`, `rx_fps = rx/t`, `tx_mbps = tx·s/t`,
`rx_mbps = rx·s/t`, tx/rx percentages fixed at 0, and the three latency
fields as the answers. -/
theorem C3_cont_metrics (dev : Dummy) (traffic : Option ConfValue)
    (t framerate : Int) (multistream : Bool) (trials : Int) (lossrate : ℚ)
    (ms2 : Bool) (inputs : List String) (tx rx mn mx avg : Int)
    (rest : List String) (evs : List ConsoleEvent) (s : Int)
    (ht : 0 < t)
    (hcoll : collectStats contStats inputs =
      some ([tx, rx, mn, mx, avg], rest, evs))
    (hfs : getFramesize (effectiveTraffic dev traffic) = some s) :
    send_cont_traffic dev traffic t framerate multistream inputs =
      Outcome.returns
        { THROUGHPUT_TX_FPS := (tx : ℚ) / (t : ℚ)
          THROUGHPUT_RX_FPS := (rx : ℚ) / (t : ℚ)
          THROUGHPUT_TX_MBPS := (tx : ℚ) * (s : ℚ) / (t : ℚ)
          THROUGHPUT_RX_MBPS := (rx : ℚ) * (s : ℚ) / (t : ℚ)
          THROUGHPUT_TX_PERCENT := 0
          THROUGHPUT_RX_PERCENT := 0
          MIN_LATENCY_NS := (mn : ℚ)
          MAX_LATENCY_NS := (mx : ℚ)
          AVG_LATENCY_NS := (avg : ℚ) } ∧
    send_rfc2544_throughput dev traffic trials t lossrate ms2 inputs =
      Outcome.returns
        { THROUGHPUT_TX_FPS := (tx : ℚ) / (t : ℚ)
          THROUGHPUT_RX_FPS := (rx : ℚ) / (t : ℚ)
          THROUGHPUT_TX_MBPS := (tx : ℚ) * (s : ℚ) / (t : ℚ)
          THROUGHPUT_RX_MBPS := (rx : ℚ) * (s : ℚ) / (t : ℚ)
          THROUGHPUT_TX_PERCENT := 0
          THROUGHPUT_RX_PERCENT := 0
          MIN_LATENCY_NS := (mn : ℚ)
          MAX_LATENCY_NS := (mx : ℚ)
          AVG_LATENCY_NS := (avg : ℚ) } := by
  have ht0 : t ≠ 0 := by omega
  constructor <;>
    simp [send_cont_traffic, send_rfc2544_throughput, get_user_traffic,
      buildContResult, hcoll, hfs, ht0]

/-- C3 witness: the spec's scenario — `duration = 20`, answers tx = 2000,
rx = 1900, min = 10, max = 50, avg = 25, frame size 64 — returns
tx_fps = 100, rx_fps = 95, tx_mbps = 6400, rx_mbps = 6080, percentages 0. -/
theorem C3_witness :
    send_cont_traffic sampleDev none 20 0 false
        ["2000", "", "1900", "", "10", "", "50", "", "25", ""] =
      Outcome.returns
        { THROUGHPUT_TX_FPS := 100
          THROUGHPUT_RX_FPS := 95
          THROUGHPUT_TX_MBPS := 6400
          THROUGHPUT_RX_MBPS := 6080
          THROUGHPUT_TX_PERCENT := 0
          THROUGHPUT_RX_PERCENT := 0
          MIN_LATENCY_NS := 10
          MAX_LATENCY_NS := 50
          AVG_LATENCY_NS := 25 } := by
  have h := (C3_cont_metrics sampleDev none 20 0 false 3 0 false
    ["2000", "", "1900", "", "10", "", "50", "", "25", ""]
    2000 1900 10 50 25 []
    [ConsoleEvent.promptStat "frames tx", ConsoleEvent.promptConfirm 2000,
     ConsoleEvent.promptStat "frames rx", ConsoleEvent.promptConfirm 1900,
     ConsoleEvent.promptStat "min latency", ConsoleEvent.promptConfirm 10,
     ConsoleEvent.promptStat "max latency", ConsoleEvent.promptConfirm 50,
     ConsoleEvent.promptStat "avg latency", ConsoleEvent.promptConfirm 25]
    64 (by decide) rfl rfl).1
  rw [h]
  norm_num

/-- C2 counterexample: with the framework's baseline configuration, no
override, and a fully answered prompt sequence, calling
`send_cont_traffic` with `time = 0` raises `ZeroDivisionError` from the
method's own `float(results[0]) / time` — the method can fail in a way
that is neither unbounded blocking nor an exception from the
configuration merge (no merge even runs here). -/
theorem C2_counterexample :
    send_cont_traffic sampleDev none 0 0 false
        ["1", "", "1", "", "1", "", "1", "", "1", ""] =
      Outcome.raised PyErr.zeroDivision := rfl

/-- C2 amended: besides unbounded blocking on operator input (and any
exception of the caller-supplied configuration merge), the methods can
fail with `ZeroDivisionError` when the duration is zero and with
`KeyError`/`TypeError` when the effective configuration lacks an integer
`l2.framesize`; when the effective configuration does provide an integer
frame size and the duration is nonzero, each method either blocks on
input or returns. -/
theorem C2_amended_no_other_failure (dev : Dummy) (traffic : Option ConfValue)
    (numpkts time framerate : Int) (multistream : Bool)
    (trials : Int) (lossrate : ℚ) (ms2 : Bool) (inputs : List String)
    (fs : Int)
    (hfs : getFramesize (effectiveTraffic dev traffic) = some fs) :
    (send_burst_traffic dev traffic numpkts time framerate inputs =
        Outcome.blocked ∨
      ∃ b, send_burst_traffic dev traffic numpkts time framerate inputs =
        Outcome.returns b) ∧
    (time ≠ 0 →
      (send_cont_traffic dev traffic time framerate multistream inputs =
          Outcome.blocked ∨
        ∃ r, send_cont_traffic dev traffic time framerate multistream inputs =
          Outcome.returns r)) ∧
    (time ≠ 0 →
      (send_rfc2544_throughput dev traffic trials time lossrate ms2 inputs =
          Outcome.blocked ∨
        ∃ r, send_rfc2544_throughput dev traffic trials time lossrate ms2
          inputs = Outcome.returns r)) := by
  refine ⟨?_, fun ht => ?_, fun ht => ?_⟩
  · cases h : collectStats burstStats inputs with
    | none =>
        left
        simp [send_burst_traffic, send_burst_traffic_run, get_user_traffic, h]
    | some trip =>
        right
        obtain ⟨vs, rest, evs⟩ := trip
        have h3 : vs.length = 3 := by
          simpa [burstStats] using collectStats_length h
        rcases vs with _ | ⟨r0, _ | ⟨r1, _ | ⟨r2, _ | ⟨x, t⟩⟩⟩⟩ <;> simp at h3
        exact ⟨{ frames_rx := r0, payload_err := r1, seq_err := r2 }, by
          simp [send_burst_traffic, send_burst_traffic_run, get_user_traffic,
            h, hfs]⟩
  · cases h : collectStats contStats inputs with
    | none =>
        left
        simp [send_cont_traffic, get_user_traffic, h]
    | some trip =>
        right
        obtain ⟨vs, rest, evs⟩ := trip
        have h5 : vs.length = 5 := by
          simpa [contStats] using collectStats_length h
        rcases vs with _ | ⟨r0, _ | ⟨r1, _ | ⟨r2, _ | ⟨r3, _ | ⟨r4, _ | ⟨x, t⟩⟩⟩⟩⟩⟩ <;>
          simp at h5
        obtain ⟨r, hr⟩ := @buildContResult_total (effectiveTraffic dev traffic)
          time fs r0 r1 r2 r3 r4 [] hfs ht
        exact ⟨r, by simp [send_cont_traffic, get_user_traffic, h, hr]⟩
  · cases h : collectStats contStats inputs with
    | none =>
        left
        simp [send_rfc2544_throughput, get_user_traffic, h]
    | some trip =>
        right
        obtain ⟨vs, rest, evs⟩ := trip
        have h5 : vs.length = 5 := by
          simpa [contStats] using collectStats_length h
        rcases vs with _ | ⟨r0, _ | ⟨r1, _ | ⟨r2, _ | ⟨r3, _ | ⟨r4, _ | ⟨x, t⟩⟩⟩⟩⟩⟩ <;>
          simp at h5
        obtain ⟨r, hr⟩ := @buildContResult_total (effectiveTraffic dev traffic)
          time fs r0 r1 r2 r3 r4 [] hfs ht
        exact ⟨r, by simp [send_rfc2544_throughput, get_user_traffic, h, hr]⟩

/-- C2 witness: with the sample defaults (integer frame size present)
and duration 20, all three methods with no operator input left simply
block rather than fail. -/
theorem C2_witness :
    (send_burst_traffic sampleDev none 100 20 100 [] = Outcome.blocked ∨
      ∃ b, send_burst_traffic sampleDev none 100 20 100 [] =
        Outcome.returns b) ∧
    (send_cont_traffic sampleDev none 20 0 false [] = Outcome.blocked ∨
      ∃ r, send_cont_traffic sampleDev none 20 0 false [] =
        Outcome.returns r) ∧
    (send_rfc2544_throughput sampleDev none 3 20 0 false [] =
        Outcome.blocked ∨
      ∃ r, send_rfc2544_throughput sampleDev none 3 20 0 false [] =
        Outcome.returns r) :=
  have h := C2_amended_no_other_failure sampleDev none 100 20 100 false 3 0
    false [] 64 rfl
  ⟨h.1, h.2.1 (by decide), h.2.2 (by decide)⟩

/-- C10: the validator only produces integers (`"10.5"` is rejected as
non-integer input), so each latency field of any record returned by
`send_cont_traffic` or `send_rfc2544_throughput` is the image of an
operator-entered integer — a fractional latency can never appear. -/
theorem C10_latency_fields_integral :
    pyParseInt "10.5" = none ∧
    (∀ (dev : Dummy) (traffic : Option ConfValue) (t framerate : Int)
        (multistream : Bool) (inputs : List String) (r : ContResult),
      send_cont_traffic dev traffic t framerate multistream inputs =
        Outcome.returns r →
      (∃ a : Int, r.MIN_LATENCY_NS = (a : ℚ)) ∧
      (∃ a : Int, r.MAX_LATENCY_NS = (a : ℚ)) ∧
      (∃ a : Int, r.AVG_LATENCY_NS = (a : ℚ))) ∧
    (∀ (dev : Dummy) (traffic : Option ConfValue) (trials duration : Int)
        (lossrate : ℚ) (multistream : Bool) (inputs : List String)
        (r : ContResult),
      send_rfc2544_throughput dev traffic trials duration lossrate
        multistream inputs = Outcome.returns r →
      (∃ a : Int, r.MIN_LATENCY_NS = (a : ℚ)) ∧
      (∃ a : Int, r.MAX_LATENCY_NS = (a : ℚ)) ∧
      (∃ a : Int, r.AVG_LATENCY_NS = (a : ℚ))) := by
  refine ⟨by decide, fun dev traffic t framerate multistream inputs r hr => ?_,
    fun dev traffic trials duration lossrate multistream inputs r hr => ?_⟩
  · cases hc : collectStats contStats inputs with
    | none =>
        simp only [send_cont_traffic, get_user_traffic, hc,
          Option.map_none'] at hr
        exact absurd hr (by simp)
    | some trip =>
        simp only [send_cont_traffic, get_user_traffic, hc,
          Option.map_some'] at hr
        obtain ⟨fs, r0, r1, r2, r3, r4, tail, hf, hvs, ht, hrec⟩ :=
          buildContResult_returns hr
        subst hrec
        exact ⟨⟨r2, rfl⟩, ⟨r3, rfl⟩, ⟨r4, rfl⟩⟩
  · cases hc : collectStats contStats inputs with
    | none =>
        simp only [send_rfc2544_throughput, get_user_traffic, hc,
          Option.map_none'] at hr
        exact absurd hr (by simp)
    | some trip =>
        simp only [send_rfc2544_throughput, get_user_traffic, hc,
          Option.map_some'] at hr
        obtain ⟨fs, r0, r1, r2, r3, r4, tail, hf, hvs, ht, hrec⟩ :=
          buildContResult_returns hr
        subst hrec
        exact ⟨⟨r2, rfl⟩, ⟨r3, rfl⟩, ⟨r4, rfl⟩⟩

/-- C10 witness: a concrete continuous run's returned latency fields are
the integers 10, 50, 25 cast to rationals. -/
theorem C10_witness :
    (∃ a : Int, ((10 : Int) : ℚ) = (a : ℚ)) ∧
    (∃ a : Int, ((50 : Int) : ℚ) = (a : ℚ)) ∧
    (∃ a : Int, ((25 : Int) : ℚ) = (a : ℚ)) :=
  C10_latency_fields_integral.2.1 sampleDev none 20 0 false
    ["2000", "", "1900", "", "10", "", "50", "", "25", ""]
    { THROUGHPUT_TX_FPS := ((2000 : Int) : ℚ) / ((20 : Int) : ℚ)
      THROUGHPUT_RX_FPS := ((1900 : Int) : ℚ) / ((20 : Int) : ℚ)
      THROUGHPUT_TX_MBPS := ((2000 : Int) : ℚ) * ((64 : Int) : ℚ) / ((20 : Int) : ℚ)
      THROUGHPUT_RX_MBPS := ((1900 : Int) : ℚ) * ((64 : Int) : ℚ) / ((20 : Int) : ℚ)
      THROUGHPUT_TX_PERCENT := 0
      THROUGHPUT_RX_PERCENT := 0
      MIN_LATENCY_NS := ((10 : Int) : ℚ)
      MAX_LATENCY_NS := ((50 : Int) : ℚ)
      AVG_LATENCY_NS := ((25 : Int) : ℚ) } rfl
